import Mathlib

/-!
Shallow embedding of the pr-agent repository (FastAPI gateway in
src/app/main.py, Celery worker pipeline in src/app/tasks.py) and proofs
about its job-orchestration and aggregation behaviour.

External collaborators (the GitHub client and the LLM critic) are modelled
as oracle functions passed in as parameters; everything else is translated
from the Python source.
-/

namespace PRAgent

/-! ## LLM response schema (src/app/tasks.py lines 80-115) -/

/-- Enum of issue types, from class IssueTypeEnums in tasks.py. -/
inductive IssueTypeEnums where
  | style
  | bug
  | performance
  | security
  | best_practice
deriving DecidableEq

/-- Enum of issue severities, from class IssueSeverityEnums in tasks.py. -/
inductive IssueSeverityEnums where
  | critical
  | high
  | medium
  | low
deriving DecidableEq

/-- One critique finding, from class Issue in tasks.py. -/
structure Issue where
  type : IssueTypeEnums
  line : Int
  description : String
  suggestion : String
  severity : IssueSeverityEnums
deriving DecidableEq

/-- Per-file summary tally reported by the LLM, from class Summary in tasks.py. -/
structure Summary where
  total_issues : Int
  critical_issues : Int
  overview : String
deriving DecidableEq

/-- Structured LLM response, from class LLMResponseSchema in tasks.py. -/
structure LLMResponseSchema where
  issues : List Issue
  summary : Summary
deriving DecidableEq

/-! ## Language detection (src/app/tasks.py lines 118-132)

Python string operations are embedded as structural recursions over the
character list so that the kernel can evaluate them on concrete inputs. -/

/-- Embedding of the Python expression filename.split(chr(46)): splits a
character list on the dot character, keeping empty segments, and never
returns an empty list of segments. -/
def splitOnDot : List Char → List (List Char)
  | [] => [[]]
  | c :: rest =>
    match splitOnDot rest with
    | [] => [[]]
    | p :: ps => if c = '.' then [] :: p :: ps else (c :: p) :: ps

/-- Embedding of the Python str.lower method (ASCII case folding, which is
all the extension table needs). -/
def pyLower (s : String) : String := String.mk (s.data.map Char.toLower)

/-- The fixed extension table of detect_language in tasks.py. -/
def extension_map : List (String × String) :=
  [(".py", "Python"),
   (".js", "JavaScript"),
   (".ts", "TypeScript"),
   (".go", "Go"),
   (".cs", "C#"),
   (".html", "HTML"),
   (".css", "CSS"),
   (".tsx", "TypeScript React"),
   (".jsx", "JavaScript React")]

/-- detect_language from tasks.py: builds the key as the dot character
prepended to the lowercased last dot-separated segment of the filename and
looks it up in extension_map, defaulting to the label Unknown. -/
def detect_language (filename : String) : String :=
  let ext := "." ++ pyLower (String.mk ((splitOnDot filename.data).getLastD []))
  ((extension_map.lookup ext).getD "Unknown")


/-! ## Per-file analysis (src/app/tasks.py lines 135-178)

The LLM call in analyze_file is an external collaborator: it is modelled
as an oracle taking the inputs of the call (the file content and the
filename, which determine the prompt) and returning either a parsed
structured response, or none for any failure of the call (exception,
timeout, or output that does not parse into LLMResponseSchema - the code
catches all of these in one except branch). -/

/-- The oracle type standing for the LLM critic call made inside
analyze_file; none models the except branch of tasks.py lines 159-168. -/
def Critic : Type := String → String → Option LLMResponseSchema

/-- File metadata attached by analyze_file (tasks.py lines 171-175). -/
structure FileInfo where
  name : String
  language : String
  size_bytes : Nat
deriving DecidableEq

/-- The per-file analysis record returned by analyze_file: the parsed LLM
response fields plus the attached file_info. -/
structure FileAnalysisResult where
  issues : List Issue
  summary : Summary
  file_info : FileInfo
deriving DecidableEq

/-- analyze_file from tasks.py: detects the language, invokes the critic,
substitutes the empty fallback record on any critic failure, and attaches
the file metadata. -/
def analyze_file (critic : Critic) (file_content : String) (filename : String) :
    FileAnalysisResult :=
  let language := detect_language filename
  let analysis_result :=
    match critic file_content filename with
    | some r => r
    | none =>
      { issues := [],
        summary :=
          { total_issues := 0, critical_issues := 0,
            overview := "Error analyzing file" } }
  { issues := analysis_result.issues,
    summary := analysis_result.summary,
    file_info :=
      { name := filename, language := language,
        size_bytes := file_content.length } }

/-! ## Fetching PR files (src/app/tasks.py lines 185-238)

The regular expression r"https?://github.com/([^/]+)/([^/]+)" of
fetch_pr_files is embedded faithfully, including the unescaped dot (which
in Python re matches any character except a newline) and the prefix-match
semantics of re.match. The GitHub client is an external collaborator,
modelled as a provider oracle from (owner, repo, pr_number, token) to
either an error or the list of changed files of the PR, each carrying the
outcome of its own content retrieval. -/

/-- Consumes an expected literal prefix from a character list, returning
the remainder, or none when the input does not start with it. -/
def dropLit : List Char → List Char → Option (List Char)
  | [], cs => some cs
  | _ :: _, [] => none
  | p :: ps, c :: cs => if c = p then dropLit ps cs else none

/-- Embedding of re.match of the pattern https?://github.com/([^/]+)/([^/]+)
as used in fetch_pr_files: prefix match, optional s, unescaped dot matching
any character but a newline, and two greedy non-slash groups. Returns the
(owner, repo) groups on a match. -/
def matchGithubUrl (s : String) : Option (String × String) :=
  (dropLit "http".data s.data).bind fun cs1 =>
  let cs2 := match cs1 with
    | 's' :: r => r
    | other => other
  (dropLit "://github".data cs2).bind fun cs3 =>
  match cs3 with
  | [] => none
  | wild :: cs4 =>
    if wild = '\n' then none else
    (dropLit "com/".data cs4).bind fun cs5 =>
    let owner := cs5.takeWhile (fun c => c ≠ '/')
    let rest := cs5.dropWhile (fun c => c ≠ '/')
    if owner = [] then none else
    match rest with
    | '/' :: cs6 =>
      let repo := cs6.takeWhile (fun c => c ≠ '/')
      if repo = [] then none
      else some (String.mk owner, String.mk repo)
    | _ => none


/-- Outcome of retrieving and decoding the content of one changed file
inside the per-file try block of fetch_pr_files: a decoded text, a
directory listing (skipped), or an exception (logged and skipped). -/
inductive ContentFetch where
  | ok (content : String)
  | directory
  | err (msg : String)
deriving DecidableEq

/-- Whether a content retrieval produced a decoded text. -/
def ContentFetch.isOk : ContentFetch → Bool
  | .ok _ => true
  | _ => false

/-- One changed file as listed by pr.get_files(), together with the outcome
of fetching its content at the PR head. -/
structure RawPRFile where
  filename : String
  status : String
  additions : Int
  deletions : Int
  changes : Int
  fetch : ContentFetch
deriving DecidableEq

/-- One entry of the list built by fetch_pr_files (tasks.py lines 217-226). -/
structure PRFile where
  name : String
  content : String
  status : String
  additions : Int
  deletions : Int
  changes : Int
deriving DecidableEq

/-- The oracle type standing for the GitHub client: resolves
(owner, repo, pr_number, token) to the changed files of the PR, or to an
error when the repository or the PR cannot be resolved. -/
def Provider : Type :=
  String → String → Int → Option String → Except String (List RawPRFile)

/-- Builds the dict appended for one changed file when its content fetch
succeeded; directories and per-file errors yield none (the continue
branches of tasks.py lines 210-231). -/
def prFileOf (f : RawPRFile) : Option PRFile :=
  match f.fetch with
  | .ok c =>
    some
      { name := f.filename, content := c, status := f.status,
        additions := f.additions, deletions := f.deletions,
        changes := f.changes }
  | .directory => none
  | .err _ => none

/-- fetch_pr_files from tasks.py: parses the repo URL with the regex
(raising ValueError on no match), resolves the PR through the provider,
and collects the files whose content retrieval succeeded, skipping
directories and per-file errors. -/
def fetch_pr_files (provider : Provider) (repo_url : String) (pr_number : Int)
    (token : Option String) : Except String (List PRFile) :=
  match matchGithubUrl repo_url with
  | none => .error "Invalid GitHub repository URL"
  | some (owner, repo_name) =>
    match provider owner repo_name pr_number token with
    | .error e => .error e
    | .ok raws => .ok (raws.filterMap prFileOf)

/-! ## The job executor (src/app/tasks.py lines 241-278) -/

/-- The report summary built at the end of analyze_code_task. -/
structure ReportSummary where
  total_files : Nat
  total_issues : Int
  critical_issues : Int
  overview : String
deriving DecidableEq

/-- The final report dict returned by analyze_code_task. -/
structure FinalResult where
  files : List FileAnalysisResult
  summary : ReportSummary
deriving DecidableEq

instance : Inhabited FinalResult :=
  ⟨{ files := [],
     summary :=
       { total_files := 0, total_issues := 0, critical_issues := 0,
         overview := "" } }⟩

/-- The overview string interpolated at tasks.py line 271. -/
def overviewLine (n : Nat) (ti ci : Int) : String :=
  "Analyzed " ++ toString n ++ " files, found " ++ toString ti ++
    " issues (" ++ toString ci ++ " critical)"

/-- The body of the per-file loop of analyze_code_task (tasks.py lines
256-262): appends the analysis of one file to the accumulated results and
adds its summary tallies to the running totals. -/
def taskStep (critic : Critic) (acc : List FileAnalysisResult × Int × Int)
    (file_info : PRFile) : List FileAnalysisResult × Int × Int :=
  let result := analyze_file critic file_info.content file_info.name
  (acc.1 ++ [result],
   acc.2.1 + result.summary.total_issues,
   acc.2.2 + result.summary.critical_issues)

/-- analyze_code_task from tasks.py: fetches the PR files (propagating any
fetch exception), analyzes each file in order while accumulating the
per-file summary tallies with += , and assembles the final report. The
loop over pr_files is embedded as a left fold of taskStep over the fetched
list. -/
def analyze_code_task (provider : Provider) (critic : Critic)
    (repo_url : String) (pr_number : Int) (github_token : Option String) :
    Except String FinalResult :=
  match fetch_pr_files provider repo_url pr_number github_token with
  | .error e => .error e
  | .ok pr_files =>
    let folded := pr_files.foldl (taskStep critic) ([], 0, 0)
    let analysis_results := folded.1
    let total_issues := folded.2.1
    let critical_issues := folded.2.2
    .ok
      { files := analysis_results,
        summary :=
          { total_files := pr_files.length,
            total_issues := total_issues,
            critical_issues := critical_issues,
            overview := overviewLine pr_files.length total_issues critical_issues } }

/-- The Celery task state resulting from one run: SUCCESS when the task
function returned, FAILURE when it raised. -/
def taskState (r : Except String FinalResult) : String :=
  match r with
  | .ok _ => "SUCCESS"
  | .error _ => "FAILURE"

/-- The report stored in the result backend for the job: present exactly
when the task returned. -/
def storedReport (r : Except String FinalResult) : Option FinalResult :=
  r.toOption

/-! ## The request gateway (src/app/main.py) -/

/-- Request body of POST /analyze-pr, from class PRAnalysisRequest in
src/app/schemas.py. -/
structure PRAnalysisRequest where
  repo_url : String
  pr_number : Int
  github_token : Option String
deriving DecidableEq

/-- Response body of POST /analyze-pr and GET /status, from class
TaskStatusResponse in src/app/schemas.py. -/
structure TaskStatusResponse where
  task_id : String
  status : String
deriving DecidableEq

/-- Response body of GET /results, from class AnalysisResultResponse in
src/app/schemas.py; the results dict is either the stored report or the
empty object, modelled as an Option with none for the empty object. -/
structure AnalysisResultResponse where
  task_id : String
  status : String
  results : Option FinalResult
deriving DecidableEq

/-- analyze_pr from main.py: enqueues the task with delay (modelled as an
oracle assigning the task id to the submitted arguments) and answers with
HTTP 202 and the fixed body. No field of the request is inspected or
validated. -/
def analyze_pr (enqueue : PRAnalysisRequest → String)
    (request : PRAnalysisRequest) : Nat × TaskStatusResponse :=
  let task_id := enqueue request
  (202, { task_id := task_id, status := "PENDING" })

/-- The view of AsyncResult(task_id) used by the results endpoint: the
current status string and the stored result when present. -/
structure CeleryTask where
  id : String
  status : String
  result : Option FinalResult
deriving DecidableEq

/-- get_results from main.py: returns the stored result only when the
task status is SUCCESS, and the empty results object otherwise. -/
def get_results (task : CeleryTask) : AnalysisResultResponse :=
  if task.status = "SUCCESS" then
    { task_id := task.id, status := task.status, results := task.result }
  else
    { task_id := task.id, status := task.status, results := none }

/-! ## Helper definitions and lemmas about the executor -/

/-- The analysis record produced for one fetched file. -/
def analyzeOf (critic : Critic) (f : PRFile) : FileAnalysisResult :=
  analyze_file critic f.content f.name

/-- The report carried by a run outcome, defaulting to the empty report on
a failed run (used only to state properties of successful runs). -/
def reportOf (x : Except String FinalResult) : FinalResult :=
  x.toOption.getD default

/-- The number of issues with severity critical across all entries of a
report, recomputed from the issues lists. -/
def criticalFromIssues (r : FinalResult) : Nat :=
  (r.files.map fun f =>
    f.issues.countP fun i =>
      match i.severity with
      | .critical => true
      | _ => false).sum

/-- The total number of issues across all entries of a report, recomputed
from the issues lists. -/
def totalFromIssues (r : FinalResult) : Nat :=
  (r.files.map fun f => f.issues.length).sum

/-! ## The extension key actually used by detect_language

detect_language keys its table on the last dot-separated segment of the
filename; the spec describes the key as the text after the last dot. The
two coincide exactly when the filename contains a dot; afterLastDot below
renders the spec reading (extended to dotless names by taking the whole
name, which is what the code does) and is proved equal to the code path. -/

/-- The text after the last dot of a character list, or the whole list when
it contains no dot. -/
def afterLastDot : List Char → List Char
  | [] => []
  | c :: rest =>
    if '.' ∈ rest then afterLastDot rest
    else if c = '.' then rest
    else c :: rest

/-- Modelled on the amended reading of the spec sentence on the Language
Detector: the lookup key is the dot character prepended to the lowercased
text after the last dot (the whole filename when it has no dot). -/
def detect_language_amended (filename : String) : String :=
  ((extension_map.lookup
      ("." ++ pyLower (String.mk (afterLastDot filename.data)))).getD
    "Unknown")

/-! ## Concrete oracles used by witnesses and counterexamples -/

/-- A critic oracle that always fails. -/
def criticNone : Critic := fun _ _ => none

/-- A provider oracle that always fails to resolve the PR. -/
def providerErr : Provider := fun _ _ _ _ => .error "PR resolution failed"

/-- A provider oracle returning a fixed changed-file list. -/
def providerOf (raws : List RawPRFile) : Provider := fun _ _ _ _ => .ok raws

/-- A changed Python file whose content fetch succeeds. -/
def wRawA : RawPRFile :=
  { filename := "a.py", status := "modified", additions := 1, deletions := 0,
    changes := 1, fetch := .ok "print(1)" }

/-- A changed JavaScript file whose content fetch succeeds. -/
def wRawB : RawPRFile :=
  { filename := "b.js", status := "added", additions := 2, deletions := 0,
    changes := 2, fetch := .ok "let x = 1" }

/-- A changed file whose content fetch raises. -/
def wRawErr : RawPRFile :=
  { filename := "gone.py", status := "removed", additions := 0,
    deletions := 3, changes := 3, fetch := .err "404 not found" }

/-- A critique with one high-severity issue and a matching summary tally. -/
def wResp : LLMResponseSchema :=
  { issues :=
      [{ type := .bug, line := 3, description := "off by one",
         suggestion := "use a closed range", severity := .high }],
    summary := { total_issues := 1, critical_issues := 0, overview := "ok" } }

/-- A critic oracle answering every call with wResp. -/
def criticConstResp : Critic := fun _ _ => some wResp

/-- A critic oracle failing exactly on the file named b.js. -/
def criticFailB : Critic := fun _ n => if n = "b.js" then none else some wResp

/-- The repository URL used by concrete runs. -/
def wUrl : String := "https://github.com/acme/widgets"

/-- The fetched file list of the two-file PR [wRawA, wRawB]. -/
def wFilesAB : List PRFile := [wRawA, wRawB].filterMap prFileOf

/-- A critic oracle whose summary tally disagrees with its issue list: an
empty issue list together with a summary claiming five issues, two of them
critical. The schema does not tie the two together. -/
def tallyCritic : Critic := fun _ _ =>
  some
    { issues := [],
      summary :=
        { total_issues := 5, critical_issues := 2,
          overview := "tally only" } }

/-- The report of the one-file run against tallyCritic. -/
def C1report : FinalResult :=
  reportOf (analyze_code_task (providerOf [wRawA]) tallyCritic wUrl 1 none)

/-- The sum of the per-file critic summary total_issues tallies of a
report. -/
def tallySummaryTotal (r : FinalResult) : Int :=
  (r.files.map fun f => f.summary.total_issues).sum

/-- The sum of the per-file critic summary critical_issues tallies of a
report. -/
def tallySummaryCritical (r : FinalResult) : Int :=
  (r.files.map fun f => f.summary.critical_issues).sum

/-- The malformed submission of Scenario C. -/
def wBadRequest : PRAnalysisRequest :=
  { repo_url := "not-a-url", pr_number := 1, github_token := none }

/-- A fixed task-id assignment for concrete submissions. -/
def wEnqueue : PRAnalysisRequest → String := fun _ => "task-1"

lemma foldl_taskStep (critic : Critic) (l : List PRFile)
    (rs : List FileAnalysisResult) (ti ci : Int) :
    l.foldl (taskStep critic) (rs, ti, ci) =
      (rs ++ l.map (analyzeOf critic),
       ti + (l.map fun f => (analyzeOf critic f).summary.total_issues).sum,
       ci + (l.map fun f => (analyzeOf critic f).summary.critical_issues).sum) := by
  induction l generalizing rs ti ci with
  | nil => simp
  | cons f l ih =>
    simp only [List.foldl_cons, taskStep, analyzeOf, List.map_cons,
      List.sum_cons, ih]
    simp [add_assoc]

/-- On a successful fetch, analyze_code_task returns the report whose files
are the in-order analyses of the fetched files and whose tallies are the
sums of the per-file summary tallies. -/
lemma analyze_code_task_ok (provider : Provider) (critic : Critic)
    (repo_url : String) (pr_number : Int) (token : Option String)
    (pr_files : List PRFile)
    (h : fetch_pr_files provider repo_url pr_number token = .ok pr_files) :
    analyze_code_task provider critic repo_url pr_number token =
      .ok
        { files := pr_files.map (analyzeOf critic),
          summary :=
            { total_files := pr_files.length,
              total_issues :=
                (pr_files.map fun f =>
                  (analyzeOf critic f).summary.total_issues).sum,
              critical_issues :=
                (pr_files.map fun f =>
                  (analyzeOf critic f).summary.critical_issues).sum,
              overview :=
                overviewLine pr_files.length
                  ((pr_files.map fun f =>
                    (analyzeOf critic f).summary.total_issues).sum)
                  ((pr_files.map fun f =>
                    (analyzeOf critic f).summary.critical_issues).sum) } } := by
  simp only [analyze_code_task, h, foldl_taskStep]
  simp

/-- A critic failure yields the empty-issue fallback record. -/
lemma analyze_file_of_critic_none (critic : Critic) (c n : String)
    (h : critic c n = none) :
    analyze_file critic c n =
      { issues := [],
        summary :=
          { total_issues := 0, critical_issues := 0,
            overview := "Error analyzing file" },
        file_info :=
          { name := n, language := detect_language n,
            size_bytes := c.length } } := by
  simp [analyze_file, h]

/-- A critic success adopts the critic response verbatim. -/
lemma analyze_file_of_critic_some (critic : Critic) (c n : String)
    (r : LLMResponseSchema) (h : critic c n = some r) :
    analyze_file critic c n =
      { issues := r.issues,
        summary := r.summary,
        file_info :=
          { name := n, language := detect_language n,
            size_bytes := c.length } } := by
  simp [analyze_file, h]


lemma splitOnDot_ne_nil (cs : List Char) : splitOnDot cs ≠ [] := by
  cases cs with
  | nil => simp [splitOnDot]
  | cons c rest =>
    simp only [splitOnDot]
    split
    · simp
    · split <;> simp

lemma splitOnDot_cons_eq (c : Char) (rest : List Char) :
    splitOnDot (c :: rest) =
      if c = '.' then [] :: splitOnDot rest
      else (c :: (splitOnDot rest).headD []) :: (splitOnDot rest).tail := by
  cases h : splitOnDot rest with
  | nil => exact absurd h (splitOnDot_ne_nil rest)
  | cons p ps => simp [splitOnDot, h]

lemma splitOnDot_no_dot (cs : List Char) (h : '.' ∉ cs) :
    splitOnDot cs = [cs] := by
  induction cs with
  | nil => rfl
  | cons c rest ih =>
    have hc : c ≠ '.' := by
      intro hcc
      exact h (by rw [hcc]; exact List.mem_cons_self '.' rest)
    have hrest : '.' ∉ rest := fun hm => h (List.mem_cons_of_mem c hm)
    rw [splitOnDot_cons_eq, if_neg hc, ih hrest]
    simp

lemma splitOnDot_singleton (cs p : List Char) (h : splitOnDot cs = [p]) :
    '.' ∉ cs := by
  induction cs generalizing p with
  | nil => simp
  | cons c rest ih =>
    rw [splitOnDot_cons_eq] at h
    by_cases hc : c = '.'
    · rw [if_pos hc] at h
      have hnil : splitOnDot rest = [] := by
        have := congrArg List.tail h
        simpa using this
      exact absurd hnil (splitOnDot_ne_nil rest)
    · rw [if_neg hc] at h
      cases hsp : splitOnDot rest with
      | nil => exact absurd hsp (splitOnDot_ne_nil rest)
      | cons q qs =>
        rw [hsp] at h
        have hqs : qs = [] := by
          have := congrArg List.tail h
          simpa using this
        subst hqs
        have hrest := ih q hsp
        intro hm
        rcases List.mem_cons.mp hm with hm | hm
        · exact hc hm.symm
        · exact hrest hm

lemma getLastD_splitOnDot (cs : List Char) :
    (splitOnDot cs).getLastD [] = afterLastDot cs := by
  induction cs with
  | nil => rfl
  | cons c rest ih =>
    rw [splitOnDot_cons_eq]
    by_cases hc : c = '.'
    · rw [if_pos hc]
      rw [List.getLastD_cons]
      by_cases hdot : '.' ∈ rest
      · rw [ih]
        simp [afterLastDot, hdot, hc]
      · rw [splitOnDot_no_dot rest hdot]
        simp [afterLastDot, hdot, hc]
    · rw [if_neg hc]
      by_cases hdot : '.' ∈ rest
      · cases hsp : splitOnDot rest with
        | nil => exact absurd hsp (splitOnDot_ne_nil rest)
        | cons p ps =>
          cases ps with
          | nil => exact absurd hdot (splitOnDot_singleton rest p hsp)
          | cons p2 ps2 =>
            rw [hsp] at ih
            rw [List.getLastD_cons, List.getLastD_cons] at ih
            simp only [List.headD_cons, List.tail_cons]
            rw [List.getLastD_cons, List.getLastD_cons, ih]
            simp [afterLastDot, hdot]
      · rw [splitOnDot_no_dot rest hdot]
        simp [afterLastDot, hdot, hc]

lemma lookup_mem {k v : String} (l : List (String × String))
    (h : l.lookup k = some v) : (k, v) ∈ l := by
  induction l with
  | nil => simp [List.lookup] at h
  | cons e es ih =>
    cases e with
    | mk a b =>
      simp only [List.lookup] at h
      by_cases hab : k = a
      · subst hab
        rw [beq_self_eq_true k] at h
        cases h
        exact List.mem_cons_self _ _
      · rw [beq_eq_false_iff_ne.mpr hab] at h
        exact List.mem_cons_of_mem _ (ih h)

lemma prFileOf_isSome (f : RawPRFile) : (prFileOf f).isSome = f.fetch.isOk := by
  cases h : f.fetch <;> simp [prFileOf, ContentFetch.isOk, h]

lemma length_filterMap_eq_countP {α β : Type} (g : α → Option β)
    (l : List α) :
    (l.filterMap g).length = l.countP fun a => (g a).isSome := by
  induction l with
  | nil => rfl
  | cons a l ih =>
    cases h : g a <;>
      simp [List.filterMap_cons, h, List.countP_cons, ih]

lemma countP_lt_length_of_mem {α : Type} (p : α → Bool) (l : List α) (a : α)
    (ha : a ∈ l) (hpa : p a = false) : l.countP p < l.length := by
  induction l with
  | nil => cases ha
  | cons b l ih =>
    rcases List.mem_cons.mp ha with h | h
    · subst h
      rw [List.countP_cons, hpa]
      simpa using Nat.lt_succ_of_le (l.countP_le_length p)
    · have hlt := ih h
      rw [List.countP_cons]
      by_cases hb : p b = true <;> simp [hb] <;> omega


/-! ## The claims -/

/-- C3: for a repo URL rejected by the fetch regex, and for a provider
failure resolving the repository or PR number, the Fetch step raises and
the exception propagates out of analyze_code_task before any critic call
is made (the outcome does not depend on the critic); the job ends in the
terminal FAILURE state and no report is stored for it. -/
theorem C3_fetch_failure_is_terminal (provider : Provider) (critic : Critic)
    (repo_url : String) (pr_number : Int) (token : Option String) :
    (matchGithubUrl repo_url = none →
      analyze_code_task provider critic repo_url pr_number token =
        .error "Invalid GitHub repository URL" ∧
      storedReport
          (analyze_code_task provider critic repo_url pr_number token) =
        none ∧
      taskState (analyze_code_task provider critic repo_url pr_number token) =
        "FAILURE" ∧
      ∀ critic2 : Critic,
        analyze_code_task provider critic repo_url pr_number token =
          analyze_code_task provider critic2 repo_url pr_number token) ∧
    (∀ owner repo e, matchGithubUrl repo_url = some (owner, repo) →
      provider owner repo pr_number token = .error e →
      analyze_code_task provider critic repo_url pr_number token =
        .error e ∧
      storedReport
          (analyze_code_task provider critic repo_url pr_number token) =
        none ∧
      taskState (analyze_code_task provider critic repo_url pr_number token) =
        "FAILURE" ∧
      ∀ critic2 : Critic,
        analyze_code_task provider critic repo_url pr_number token =
          analyze_code_task provider critic2 repo_url pr_number token) := by
  constructor
  · intro h
    simp [analyze_code_task, fetch_pr_files, h, storedReport, taskState,
      Except.toOption]
  · intro owner repo e hm hp
    simp [analyze_code_task, fetch_pr_files, hm, hp, storedReport, taskState,
      Except.toOption]

/-- Witness for C3 at the concrete malformed URL of Scenario C. -/
theorem C3_witness :
    analyze_code_task providerErr criticNone "not-a-url" 1 none =
      Except.error "Invalid GitHub repository URL" ∧
    taskState (analyze_code_task providerErr criticNone "not-a-url" 1 none) =
      "FAILURE" :=
  ⟨((C3_fetch_failure_is_terminal providerErr criticNone "not-a-url" 1
        none).1 (by decide)).1,
   ((C3_fetch_failure_is_terminal providerErr criticNone "not-a-url" 1
        none).1 (by decide)).2.2.1⟩

/-- C4: the files sequence of the final report lists the per-file analyses
in exactly the order the fetch step returned the changed files; the entry
at index k is the analysis of the k-th fetched file. -/
theorem C4_report_preserves_fetch_order (provider : Provider)
    (critic : Critic) (repo_url : String) (pr_number : Int)
    (token : Option String) (pr_files : List PRFile)
    (hfetch :
      fetch_pr_files provider repo_url pr_number token = .ok pr_files) :
    (reportOf
        (analyze_code_task provider critic repo_url pr_number token)).files =
      pr_files.map (analyzeOf critic) ∧
    ∀ k : Nat,
      (reportOf
          (analyze_code_task provider critic repo_url pr_number
            token)).files[k]? =
        pr_files[k]?.map (analyzeOf critic) := by
  rw [analyze_code_task_ok provider critic repo_url pr_number token pr_files
    hfetch]
  constructor
  · simp [reportOf, Except.toOption]
  · intro k
    simp [reportOf, Except.toOption, List.getElem?_map]

/-- Witness for C4 on a concrete two-file PR. -/
theorem C4_witness :
    (reportOf
        (analyze_code_task (providerOf [wRawA, wRawB]) criticConstResp wUrl 1
          none)).files =
      wFilesAB.map (analyzeOf criticConstResp) :=
  (C4_report_preserves_fetch_order (providerOf [wRawA, wRawB])
    criticConstResp wUrl 1 none wFilesAB rfl).1

/-- C5: on every successful run, summary.total_files equals the length of
the files sequence of the report, and both count every fetched file. -/
theorem C5_total_files_counts_every_file (provider : Provider)
    (critic : Critic) (repo_url : String) (pr_number : Int)
    (token : Option String) (pr_files : List PRFile)
    (hfetch :
      fetch_pr_files provider repo_url pr_number token = .ok pr_files) :
    (reportOf
        (analyze_code_task provider critic repo_url pr_number
          token)).summary.total_files =
      (reportOf
          (analyze_code_task provider critic repo_url pr_number
            token)).files.length ∧
    (reportOf
        (analyze_code_task provider critic repo_url pr_number
          token)).summary.total_files = pr_files.length := by
  rw [analyze_code_task_ok provider critic repo_url pr_number token pr_files
    hfetch]
  simp [reportOf, Except.toOption]

/-- Witness for C5 on a concrete two-file PR. -/
theorem C5_witness :
    (reportOf
        (analyze_code_task (providerOf [wRawA, wRawB]) criticConstResp wUrl 1
          none)).summary.total_files =
      (reportOf
          (analyze_code_task (providerOf [wRawA, wRawB]) criticConstResp wUrl
            1 none)).files.length :=
  (C5_total_files_counts_every_file (providerOf [wRawA, wRawB])
    criticConstResp wUrl 1 none wFilesAB rfl).1

/-- C7: a PR whose fetch returns zero changed files completes with state
SUCCESS and a report with an empty files sequence and zero counts. -/
theorem C7_zero_changed_files_succeeds (provider : Provider)
    (critic : Critic) (repo_url : String) (pr_number : Int)
    (token : Option String)
    (hfetch : fetch_pr_files provider repo_url pr_number token = .ok []) :
    taskState (analyze_code_task provider critic repo_url pr_number token) =
      "SUCCESS" ∧
    (reportOf
        (analyze_code_task provider critic repo_url pr_number token)).files =
      [] ∧
    (reportOf
        (analyze_code_task provider critic repo_url pr_number
          token)).summary.total_files = 0 ∧
    (reportOf
        (analyze_code_task provider critic repo_url pr_number
          token)).summary.total_issues = 0 ∧
    (reportOf
        (analyze_code_task provider critic repo_url pr_number
          token)).summary.critical_issues = 0 := by
  rw [analyze_code_task_ok provider critic repo_url pr_number token []
    hfetch]
  simp [reportOf, taskState, Except.toOption]

/-- Witness for C7 on a concrete zero-file PR. -/
theorem C7_witness :
    taskState (analyze_code_task (providerOf []) criticNone wUrl 1 none) =
      "SUCCESS" ∧
    (reportOf
        (analyze_code_task (providerOf []) criticNone wUrl 1 none)).files =
      [] :=
  ⟨(C7_zero_changed_files_succeeds (providerOf []) criticNone wUrl 1 none
      rfl).1,
   (C7_zero_changed_files_succeeds (providerOf []) criticNone wUrl 1 none
      rfl).2.1⟩

/-- C2: a critic failure for one file among several degrades that file to
an empty issue list instead of propagating: the report still has one entry
per fetched file in fetch order, every entry is the ordinary per-file
analysis of its file, the entry of the failing file has an empty issues
list, and the job reaches SUCCESS, not FAILURE. -/
theorem C2_critic_failure_degrades_not_fails (provider : Provider)
    (critic : Critic) (repo_url : String) (pr_number : Int)
    (token : Option String) (pr_files : List PRFile) (i : Nat)
    (hfetch :
      fetch_pr_files provider repo_url pr_number token = .ok pr_files)
    (hi : i < pr_files.length)
    (hfail : critic pr_files[i].content pr_files[i].name = none) :
    taskState (analyze_code_task provider critic repo_url pr_number token) =
      "SUCCESS" ∧
    (reportOf
        (analyze_code_task provider critic repo_url pr_number
          token)).files.length = pr_files.length ∧
    (∀ k : Nat,
      (reportOf
          (analyze_code_task provider critic repo_url pr_number
            token)).files[k]? = pr_files[k]?.map (analyzeOf critic)) ∧
    (reportOf
        (analyze_code_task provider critic repo_url pr_number
          token)).files[i]?.map FileAnalysisResult.issues = some [] := by
  rw [analyze_code_task_ok provider critic repo_url pr_number token pr_files
    hfetch]
  refine ⟨rfl, by simp [reportOf, Except.toOption], ?_, ?_⟩
  · intro k
    simp [reportOf, Except.toOption, List.getElem?_map]
  · simp only [reportOf, Except.toOption, Option.getD_some,
      List.getElem?_map]
    rw [List.getElem?_eq_getElem hi]
    simp [analyzeOf, analyze_file, hfail]

/-- Witness for C2: the critic fails on the second of two files; the job
still succeeds and that entry has no issues. -/
theorem C2_witness :
    taskState
        (analyze_code_task (providerOf [wRawA, wRawB]) criticFailB wUrl 1
          none) = "SUCCESS" ∧
    (reportOf
        (analyze_code_task (providerOf [wRawA, wRawB]) criticFailB wUrl 1
          none)).files[1]?.map FileAnalysisResult.issues = some [] :=
  ⟨(C2_critic_failure_degrades_not_fails (providerOf [wRawA, wRawB])
      criticFailB wUrl 1 none wFilesAB 1 rfl (by decide) (by decide)).1,
   (C2_critic_failure_degrades_not_fails (providerOf [wRawA, wRawB])
      criticFailB wUrl 1 none wFilesAB 1 rfl (by decide) (by decide)).2.2.2⟩


/-- Counterexample to C1: a successful run whose report carries
total_issues = 5 and critical_issues = 2 while the issues lists of its
entries are all empty, so neither count is recomputed from the issues
lists. -/
theorem C1_counterexample :
    taskState (analyze_code_task (providerOf [wRawA]) tallyCritic wUrl 1
        none) = "SUCCESS" ∧
    C1report.summary.total_issues = 5 ∧
    totalFromIssues C1report = 0 ∧
    C1report.summary.critical_issues = 2 ∧
    criticalFromIssues C1report = 0 ∧
    ¬(C1report.summary.total_issues = (totalFromIssues C1report : Int) ∧
      C1report.summary.critical_issues =
        (criticalFromIssues C1report : Int)) := by
  decide


/-- C1 amended: on every successful run the summary.total_issues
and summary.critical_issues are the sums of the per-file summary tallies
reported by the critic (zero on the degrade path), not counts recomputed
from the issues lists. -/
theorem C1_totals_are_summed_tallies (provider : Provider) (critic : Critic)
    (repo_url : String) (pr_number : Int) (token : Option String)
    (pr_files : List PRFile)
    (hfetch :
      fetch_pr_files provider repo_url pr_number token = .ok pr_files) :
    (reportOf
        (analyze_code_task provider critic repo_url pr_number
          token)).summary.total_issues =
      tallySummaryTotal
        (reportOf
          (analyze_code_task provider critic repo_url pr_number token)) ∧
    (reportOf
        (analyze_code_task provider critic repo_url pr_number
          token)).summary.critical_issues =
      tallySummaryCritical
        (reportOf
          (analyze_code_task provider critic repo_url pr_number token)) := by
  rw [analyze_code_task_ok provider critic repo_url pr_number token pr_files
    hfetch]
  constructor <;>
    simp [reportOf, Except.toOption, tallySummaryTotal,
      tallySummaryCritical, List.map_map, Function.comp_def]

/-- Witness for the amended C1 on the concrete run behind the
counterexample. -/
theorem C1_amended_witness :
    C1report.summary.total_issues = tallySummaryTotal C1report ∧
    C1report.summary.critical_issues = tallySummaryCritical C1report :=
  C1_totals_are_summed_tallies (providerOf [wRawA]) tallyCritic wUrl 1 none
    ([wRawA].filterMap prFileOf) rfl

/-- Counterexample to C6: the dotless filename py has no extension, yet
detect_language maps it to Python, not Unknown, because the code keys the
table on the last dot-split segment, which for a dotless name is the whole
name. -/
theorem C6_counterexample :
    ('.' ∉ "py".data) ∧ detect_language "py" = "Python" ∧
      detect_language "py" ≠ "Unknown" := by
  decide

/-- C6 amended: detect_language equals the fixed-table lookup keyed by the
dot character prepended to the lowercased text after the last dot, where a
filename without any dot contributes its whole lowercased name as the key
text (so a dotless name equal to a known extension maps to that language);
any key absent from the table yields Unknown, and the function is pure and
total. -/
theorem C6_lookup_key_amended (filename : String) :
    detect_language filename = detect_language_amended filename ∧
    (detect_language filename = "Unknown" ∨
      ("." ++ pyLower (String.mk (afterLastDot filename.data)),
        detect_language filename) ∈ extension_map) := by
  have hkey : detect_language filename = detect_language_amended filename := by
    unfold detect_language detect_language_amended
    rw [getLastD_splitOnDot]
  refine ⟨hkey, ?_⟩
  rw [hkey]
  unfold detect_language_amended
  cases hl :
      extension_map.lookup
        ("." ++ pyLower (String.mk (afterLastDot filename.data))) with
  | none => left; simp
  | some v => right; simpa using lookup_mem extension_map hl

/-- C8: for a task in any state other than SUCCESS the results endpoint
answers with the current status and the empty results object, never an
error; only in state SUCCESS does it answer with the stored report. -/
theorem C8_results_empty_unless_success (task : CeleryTask) :
    (task.status ≠ "SUCCESS" →
      get_results task =
        { task_id := task.id, status := task.status, results := none }) ∧
    (task.status = "SUCCESS" →
      get_results task =
        { task_id := task.id, status := task.status,
          results := task.result }) := by
  constructor
  · intro h
    simp [get_results, h]
  · intro h
    simp [get_results, h]

/-- Witness for C8 at a concrete pending task. -/
theorem C8_witness :
    get_results { id := "t1", status := "PENDING", result := none } =
      { task_id := "t1", status := "PENDING", results := none } :=
  (C8_results_empty_unless_success
    { id := "t1", status := "PENDING", result := none }).1 (by decide)

/-- C9: the submit endpoint performs no URL validation: for every request,
including one whose repo_url the fetch regex rejects, it enqueues the job
and answers 202 with status PENDING; a malformed URL surfaces only later,
as a FAILURE of the job at fetch time with no stored report. -/
theorem C9_submission_never_validates_url
    (enqueue : PRAnalysisRequest → String) (request : PRAnalysisRequest) :
    analyze_pr enqueue request =
      (202, { task_id := enqueue request, status := "PENDING" }) ∧
    (matchGithubUrl request.repo_url = none →
      ∀ (provider : Provider) (critic : Critic),
        taskState
            (analyze_code_task provider critic request.repo_url
              request.pr_number request.github_token) = "FAILURE" ∧
        storedReport
            (analyze_code_task provider critic request.repo_url
              request.pr_number request.github_token) = none) := by
  constructor
  · rfl
  · intro h provider critic
    constructor <;>
      simp [analyze_code_task, fetch_pr_files, h, taskState, storedReport,
        Except.toOption]


/-- Witness for C9 at the concrete malformed submission. -/
theorem C9_witness :
    analyze_pr wEnqueue wBadRequest =
      (202, { task_id := "task-1", status := "PENDING" }) ∧
    taskState (analyze_code_task providerErr criticNone "not-a-url" 1 none) =
      "FAILURE" :=
  ⟨(C9_submission_never_validates_url wEnqueue wBadRequest).1,
   ((C9_submission_never_validates_url wEnqueue wBadRequest).2 (by decide)
      providerErr criticNone).1⟩

/-- C10: a changed file whose content retrieval or decoding raises is
silently skipped by the fetch step: the fetched list keeps exactly the
files whose content retrieval succeeded, any error entry makes it strictly
shorter than the list of changed files of the PR (so total_files may
undercount the PR), and such an error never fails the job. -/
theorem C10_per_file_fetch_errors_skipped (provider : Provider)
    (critic : Critic) (repo_url : String) (pr_number : Int)
    (token : Option String) (owner repo : String) (raws : List RawPRFile)
    (hmatch : matchGithubUrl repo_url = some (owner, repo))
    (hprov : provider owner repo pr_number token = .ok raws) :
    fetch_pr_files provider repo_url pr_number token =
      .ok (raws.filterMap prFileOf) ∧
    (raws.filterMap prFileOf).length =
      (raws.countP fun f => f.fetch.isOk) ∧
    (∀ f ∈ raws, f.fetch.isOk = false →
      (raws.filterMap prFileOf).length < raws.length) ∧
    taskState (analyze_code_task provider critic repo_url pr_number token) =
      "SUCCESS" ∧
    (reportOf
        (analyze_code_task provider critic repo_url pr_number
          token)).summary.total_files = (raws.filterMap prFileOf).length := by
  have hfetch :
      fetch_pr_files provider repo_url pr_number token =
        .ok (raws.filterMap prFileOf) := by
    simp [fetch_pr_files, hmatch, hprov]
  refine ⟨hfetch, ?_, ?_, ?_, ?_⟩
  · rw [length_filterMap_eq_countP]
    congr 1
    funext f
    exact prFileOf_isSome f
  · intro f hf hnot
    rw [length_filterMap_eq_countP]
    refine countP_lt_length_of_mem _ raws f hf ?_
    rw [prFileOf_isSome]
    exact hnot
  · rw [analyze_code_task_ok provider critic repo_url pr_number token _
      hfetch]
    rfl
  · rw [analyze_code_task_ok provider critic repo_url pr_number token _
      hfetch]
    simp [reportOf, Except.toOption]

/-- Witness for C10 on a PR with one fetchable file and one file whose
content retrieval raises. -/
theorem C10_witness :
    fetch_pr_files (providerOf [wRawA, wRawErr]) wUrl 1 none =
      .ok ([wRawA, wRawErr].filterMap prFileOf) ∧
    ([wRawA, wRawErr].filterMap prFileOf).length < [wRawA, wRawErr].length ∧
    taskState
        (analyze_code_task (providerOf [wRawA, wRawErr]) criticConstResp wUrl
          1 none) = "SUCCESS" :=
  ⟨(C10_per_file_fetch_errors_skipped (providerOf [wRawA, wRawErr])
      criticConstResp wUrl 1 none "acme" "widgets" [wRawA, wRawErr]
      (by decide) rfl).1,
   (C10_per_file_fetch_errors_skipped (providerOf [wRawA, wRawErr])
      criticConstResp wUrl 1 none "acme" "widgets" [wRawA, wRawErr]
      (by decide) rfl).2.2.1 wRawErr (by decide) (by decide),
   (C10_per_file_fetch_errors_skipped (providerOf [wRawA, wRawErr])
      criticConstResp wUrl 1 none "acme" "widgets" [wRawA, wRawErr]
      (by decide) rfl).2.2.2.1⟩

end PRAgent
